import Mathlib

/-!
Shallow embedding of the reactive UI micro-framework in
src/docs/fntags.js: the observable-state engine (fnstate, its proxy
traps, addObserver and reset), the binding accessor returned by
fnbind, the element renderer, and the router's path predicates
(ensureSlash, shouldDisplayRoute, routeSwitch).  Line numbers in the
doc comments refer to src/docs/fntags.js.
-/

namespace Fntags

/-- Model of a JavaScript value as handled by the observable-state
engine.  Plain objects are association lists from property names
(character lists) to values; DOM nodes are identified by a numeric
object id. -/
inductive JsVal where
  | undefV
  | nullV
  | boolV (b : Bool)
  | numV (n : Int)
  | strV (s : List Char)
  | node (id : Nat)
  | obj (fields : List (List Char × JsVal))

/-- JavaScript truthiness for the modelled values (used by the guards
on lines 82 and 125). -/
def jsTruthy : JsVal → Bool
  | .undefV => false
  | .nullV => false
  | .boolV b => b
  | .numV n => decide (n ≠ 0)
  | .strV s => decide (s ≠ [])
  | .node _ => true
  | .obj _ => true

/-- Model of isNode (lines 20-22): true exactly for DOM nodes. -/
def isNodeJs : JsVal → Bool
  | .node _ => true
  | _ => false

/-- JavaScript property write on a plain object (the Reflect.set of
line 67 acting on the proxy target): overwrites an existing key in
place, otherwise appends the new property. -/
def objSet (o : List (List Char × JsVal)) (k : List Char) (v : JsVal) :
    List (List Char × JsVal) :=
  if (o.lookup k).isSome then
    o.map (fun kv => if kv.1 = k then (k, v) else kv)
  else
    o ++ [(k, v)]

/-- JavaScript property delete (the Reflect.deleteProperty of
line 67). -/
def objDelete (o : List (List Char × JsVal)) (k : List Char) :
    List (List Char × JsVal) :=
  o.filter (fun kv => kv.1 != k)

/-- A state object produced by fnstate (lines 63-76): the proxy target
(the backing object) together with the registered observer callbacks
in registration order.  Observers are identified abstractly by a
numeric id: the engine passes every one of them the same argument, so
only their identity and order matter.  There is no separate copy of
the initial values: the proxy target IS the object supplied as
initialState (line 73). -/
structure StateModel where
  target : List (List Char × JsVal)
  observers : List Nat

/-- The notification loop of notify (lines 68-70): every registered
observer is invoked once, in list order, each call receiving the same
argument args[0].  The result records the calls as
(observer id, argument) in execution order. -/
def obsLoop (arg : JsVal) : List Nat → List (Nat × JsVal)
  | [] => []
  | ob :: rest => (ob, arg) :: obsLoop arg rest

/-- The set trap (lines 66-74): Reflect.set mutates the target first,
then every observer is called with args[0], which for a set trap is
the proxy TARGET - the whole backing object - not the assigned value.
Returns the new state and the sequence of observer calls. -/
def notifySet (s : StateModel) (k : List Char) (v : JsVal) :
    StateModel × List (Nat × JsVal) :=
  let t := objSet s.target k v
  (⟨t, s.observers⟩, obsLoop (JsVal.obj t) s.observers)

/-- The deleteProperty trap (lines 66-72 and 75): as for set, args[0]
is the proxy target, not the deleted key. -/
def notifyDelete (s : StateModel) (k : List Char) :
    StateModel × List (Nat × JsVal) :=
  let t := objDelete s.target k
  (⟨t, s.observers⟩, obsLoop (JsVal.obj t) s.observers)

/-- Object.assign(p, source) as invoked on line 99: each own property
of source is written through the proxy, so each write runs the set
trap; the observer calls of all writes are concatenated. -/
def assignAll : List (List Char × JsVal) → StateModel →
    StateModel × List (Nat × JsVal)
  | [], s => (s, [])
  | (k, v) :: rest, s =>
    let r1 := notifySet s k v
    let r2 := assignAll rest r1.1
    (r2.1, r1.2 ++ r2.2)

/-- reset (lines 97-100), as reached through resetState (line 115):
observers is reassigned to a fresh empty array first; when reInit is
set, Object.assign(p, initialState) runs - but initialState IS the
proxy target (line 73), mutated in place by every earlier write, so
the assignment copies the current target onto itself. -/
def resetState (s : StateModel) (reInit : Bool) :
    StateModel × List (Nat × JsVal) :=
  let s1 : StateModel := ⟨s.target, []⟩
  if reInit then assignAll s1.target s1 else (s1, [])

/-- The value of getElId (line 168): the JS expression
isTagged(el) && getTag(el).id evaluates to the Boolean false for an
untagged element and to the numeric tag id otherwise; under the strict
comparison of line 85 the Boolean is never equal to a number. -/
inductive ElId where
  | fls
  | idv (n : Nat)
deriving DecidableEq

/-- World state for the identity tagger and one binding handle: the
monotone counter lastId (line 150), the identity-tag side table from
object id to tag id (modelling the hidden _fn_element_info property;
handles and nodes live in the same object-id space), the sibling list
of the DOM position the handle occupies, el.current, and the owning
state's observers array (a slot is none where a JS delete left a
hole). -/
structure World where
  lastId : Nat
  tags : List (Nat × Nat)
  dom : List Nat
  current : Nat
  observers : List (Option Unit)

/-- isTagged (line 167). -/
def isTagged (w : World) (o : Nat) : Bool :=
  (w.tags.lookup o).isSome

/-- tagElement (lines 153-164): assigns the next counter value as the
object's frozen identity tag, only when it has none. -/
def tagElement (w : World) (o : Nat) : World :=
  if isTagged w o then w
  else { w with tags := (o, w.lastId) :: w.tags, lastId := w.lastId + 1 }

/-- getElId (line 168). -/
def getElId (w : World) (o : Nat) : ElId :=
  match w.tags.lookup o with
  | some n => .idv n
  | none => .fls

/-- delete observers[i] (line 86): for a numeric index the JS array
delete leaves a hole at that index (and is a no-op past the end); when
getElId returned false the computed property name is "false", which
touches no array slot at all. -/
def deleteObsSlot (w : World) (i : ElId) : World :=
  match i with
  | .fls => w
  | .idv n => { w with observers := w.observers.set n none }

/-- One run of the observer closure pushed by addObserver
(lines 80-91), with the freshly computed element - the value of
update ? update(el.current, state) : renderElement(element(state)) -
passed in as newElement.  Mirrors: the truthy-node guard (line 82),
tagging the new element when untagged (lines 83-84), the strict id
comparison (line 85), the observers-slot delete (line 86),
el.current.replaceWith(newElement) (line 87) modelled on the sibling
list, and the el.current update (line 88). -/
def observerNotify (w : World) (newElement : JsVal) : World :=
  if jsTruthy newElement && isNodeJs newElement then
    match newElement with
    | .node nid =>
      let w1 := if isTagged w nid then w else tagElement w nid
      if getElId w1 w1.current ≠ getElId w1 nid then
        let w2 := deleteObsSlot w1 (getElId w1 w1.current)
        { w2 with
          dom := w2.dom.map (fun x => if x = w2.current then nid else x),
          current := nid }
      else w1
    | _ => w
  else w

/-- addObserver (lines 78-92): line 79 tags the HANDLE object el
itself - not the node el.current that it tracks - and then the
observer closure is pushed.  handleObj is the object id of the
handle. -/
def addObserver (w : World) (handleObj : Nat) : World :=
  let w1 := tagElement w handleObj
  { w1 with observers := w1.observers ++ [some ()] }

/-- Condition under which the closure of lines 82-89 swaps the DOM
node: the computed element is a (truthy) node and, after the
conditional tagging of lines 83-84, its identity differs from that of
el.current under the strict comparison of line 85. -/
def replacementCondition (w : World) (ne : JsVal) : Prop :=
  ∃ nid, ne = JsVal.node nid ∧
    getElId (tagElement w nid) w.current ≠ getElId (tagElement w nid) nid

/-- Model of the values the renderer can receive: the closed set of
shapes renderElement (lines 124-140) distinguishes.  A zero-argument
JS function is modelled by the value it returns when invoked
(line 131); a generic plain object by objV. -/
inductive RChild where
  | undefV
  | nullV
  | boolV (b : Bool)
  | numV (n : Int)
  | strV (s : String)
  | funcV (ret : RChild)
  | nodeV (id : Nat)
  | objV
deriving DecidableEq

/-- A value thrown by the module.  Every throw site in fntags.js
throws new Error(msg).stack - the stack string of a freshly
constructed Error - never the Error object itself.  errStack msg
stands for the stack string of an Error whose message is msg;
errObject msg is the shape a site would produce if it threw the Error
directly, and the development shows it is never used. -/
inductive Thrown where
  | errStack (msg : String)
  | errObject (msg : String)
deriving DecidableEq

/-- typeof element === 'string' (lines 125, 128). -/
def isStr : RChild → Bool
  | .strV _ => true
  | _ => false

/-- typeof element === 'function' (line 130). -/
def isFunc : RChild → Bool
  | .funcV _ => true
  | _ => false

/-- isNode on renderer values (lines 20-22, 134, 136). -/
def isNodeR : RChild → Bool
  | .nodeV _ => true
  | _ => false

/-- JavaScript truthiness on renderer values (the !element test of
line 125). -/
def rTruthy : RChild → Bool
  | .undefV => false
  | .nullV => false
  | .boolV b => b
  | .numV n => decide (n ≠ 0)
  | .strV s => decide (s ≠ "")
  | .funcV _ => true
  | .nodeV _ => true
  | .objV => true

/-- el.constructor && el.constructor.name || typeof el (line 143) for
the modelled values.  undef and nullV cannot reach badElementType
(they are falsy and fail earlier with MissingChild). -/
def ctorNameR : RChild → String
  | .boolV _ => "Boolean"
  | .numV _ => "Number"
  | .strV _ => "String"
  | .funcV _ => "Function"
  | .nodeV _ => "HTMLDivElement"
  | .objV => "Object"
  | .undefV => "undefined"
  | .nullV => "object"

/-- The message of the MissingChild error (line 126). -/
def missingChildMsg : String := "children can\x27t be undefined"

/-- badElementType (lines 142-146): throws the stack string of an
Error naming the offending value's constructor (or typeof). -/
def badElementType (el : RChild) : Thrown :=
  .errStack ("Element type " ++ ctorNameR el ++
    " is not supported. Elements must be one of [String, Function, Element, HTMLElement]")

/-- Invocation of a zero-argument JS function value (line 131). -/
def invokeR : RChild → RChild
  | .funcV r => r
  | _ => .undefV

/-- The node id carried by a node value (callers guard with
isNodeR). -/
def nodeIdR : RChild → Nat
  | .nodeV n => n
  | _ => 0

/-- renderElement (lines 124-140).  cnt is the allocator for fresh DOM
nodes (document.createTextNode creates one); the result is the updated
allocator and the id of the produced node. -/
def renderElement (cnt : Nat) (element : RChild) : Except Thrown (Nat × Nat) :=
  if !(isStr element) && !(rTruthy element) then
    .error (.errStack missingChildMsg)
  else if isStr element then
    .ok (cnt + 1, cnt)
  else if isFunc element then
    let returnedElement := invokeR element
    if isStr returnedElement then
      .ok (cnt + 1, cnt)
    else if !(isNodeR returnedElement) then
      .error (badElementType element)
    else
      .ok (cnt, nodeIdR returnedElement)
  else if isNodeR element then
    .ok (cnt, nodeIdR element)
  else
    .error (badElementType element)

/-- The element argument of fnbind: either a render function - given
the node allocator, it returns the updated allocator and the value it
produces, exactly like a JS closure that may call h and so create
fresh elements - or a plain DOM node. -/
inductive BindTarget where
  | fnTarget (f : Nat → Nat × RChild)
  | nodeTarget (n : Nat)

/-- Mutable state seen by one binding accessor: the node allocator and
el.current. -/
structure AccState where
  cnt : Nat
  current : Nat
deriving DecidableEq

/-- The zero-argument accessor returned by fnbind (lines 52-55): every
call re-assigns el.current - re-invoking the render function and
re-rendering its result when element is a function, or using the bound
node directly - and returns el.current. -/
def accessorCall (element : BindTarget) (s : AccState) :
    Except Thrown (AccState × Nat) :=
  match element with
  | .fnTarget f =>
    let r := f s.cnt
    match renderElement r.1 r.2 with
    | .ok p => .ok (⟨p.1, p.2⟩, p.2)
    | .error e => .error e
  | .nodeTarget n => .ok (⟨s.cnt, n⟩, n)

/-- Validation of fnstate's argument (line 64); typeof null is
"object", so only non-object primitives are rejected. -/
def fnstateInit (initialState : RChild) : Except Thrown Unit :=
  match initialState with
  | .nullV | .nodeV _ | .objV => .ok ()
  | _ => .error (.errStack "initial state must be an object")

/-- Validation performed by fnbind (lines 42-46): element must be a
function or a node; a bound node needs an update function; every
supplied state must carry the fnstate metadata.  stateChecks lists, in
order, whether each state passes isfnstate (the interpolation of the
offending state into the message is elided). -/
def fnbindCheck (element update : RChild) (stateChecks : List Bool) :
    Except Thrown Unit :=
  if !(isFunc element) && !(isNodeR element) then
    .error (.errStack "You can only bind functions and Elements")
  else if isNodeR element && !(isFunc update) then
    .error (.errStack "You must supply an update function when binding an element")
  else if stateChecks.all (fun b => b) then
    .ok ()
  else
    .error (.errStack "State is not initialized. Use fnstate() to initialize.")

/-- Root resolution of fnapp (lines 6-12).  byId models
document.getElementById.  When a string id is not found, root has
already been overwritten with the null lookup result, so the thrown
message interpolates null (line 9). -/
def fnappRoot (root : RChild) (byId : String → Option Nat) : Except Thrown Nat :=
  match root with
  | .strV s =>
    match byId s with
    | none => .error (.errStack "No such element with id null")
    | some nid => .ok nid
  | _ =>
    if isNodeR root then .ok (nodeIdR root)
    else .error (.errStack "Invalid root element")

/-- A computation whose failure, if any, is a stack string and not an
Error object. -/
def stackOnly {α : Type} : Except Thrown α → Bool
  | .error (.errObject _) => false
  | _ => true

/-- The second statement of ensureSlash (line 271): strip one trailing
slash when present. -/
def ensureSlashTail (p : List Char) : List Char :=
  if p.getLast? = some '/' then p.dropLast else p

/-- ensureSlash (lines 269-272): prepend a slash when the first
character is not one (line 270), then strip one trailing slash when
present (line 271). -/
def ensureSlash (part : List Char) : List Char :=
  ensureSlashTail (if part.head? = some '/' then part else '/' :: part)

/-- Split a path at its last slash, as the replace of line 301 does:
the greedy group takes everything before the last slash and the second
group what follows it; none when the path holds no slash at all (the
replace then leaves the pattern equal to the path). -/
def splitLastSlash : List Char → Option (List Char × List Char)
  | [] => none
  | c :: rest =>
    match splitLastSlash rest with
    | some pr => some (c :: pr.1, pr.2)
    | none => if c = '/' then some ([], rest) else none

/-- Match a literal run of characters at the front of s, returning the
remainder. -/
def stripLit : List Char → List Char → Option (List Char)
  | [], s => some s
  | _ :: _, [] => none
  | c :: cs, x :: xs => if x = c then stripLit cs xs else none

/-- The ([/?#]|$) tail of the constructed pattern: end of input or one
of the three boundary characters. -/
def boundaryOk : List Char → Bool
  | [] => true
  | c :: _ => (c == '/') || (c == '?') || (c == '#')

/-- The literal segment followed by a boundary. -/
def segBoundary (seg s : List Char) : Bool :=
  match stripLit seg s with
  | some rest => boundaryOk rest
  | none => false

/-- The pattern pre ++ "/?" ++ seg ++ "([/?#]|$)" matched at the head
of s; both alternatives of the optional slash are tried, as regex
backtracking does. -/
def patAt (pre seg s : List Char) : Bool :=
  match stripLit pre s with
  | some rest =>
    segBoundary seg rest ||
    (match rest with
     | '/' :: r2 => segBoundary seg r2
     | _ => false)
  | none => false

/-- Unanchored regex search, as String.prototype.match performs on the
pattern of line 301 (the pattern carries no anchor): the pattern may
match at any position of s. -/
def patSearch (pre seg : List Char) : List Char → Bool
  | [] => patAt pre seg []
  | c :: rest => patAt pre seg (c :: rest) || patSearch pre seg rest

/-- Unanchored search for a literal pattern: the fallback when the
replace of line 301 finds no slash and the pattern is the path
itself. -/
def litSearch (pat : List Char) : List Char → Bool
  | [] => (stripLit pat []).isSome
  | c :: rest => (stripLit pat (c :: rest)).isSome || litSearch pat rest

/-- shouldDisplayRoute (lines 295-305), with the module globals made
explicit: rootPath is pathState.info.rootPath and currPath is
window.location.pathname.  The absolute branch compares for equality
with and without a trailing slash; the relative branch builds the
pattern with the replace of line 301 and searches currPath unanchored.
The literal path characters are assumed free of regex metacharacters,
as they are in every use below. -/
def shouldDisplayRoute (rootPath currPath routeArg : List Char)
    (isAbsolute : Bool) : Bool :=
  let path := rootPath ++ ensureSlash routeArg
  if isAbsolute then
    (currPath == path) || (currPath == path ++ ['/'])
  else
    match splitLastSlash path with
    | some pr => patSearch pr.1 pr.2 currPath
    | none => litSearch path currPath

/-- One child of routeSwitch after rendering: its path attribute (none
where getAttribute returns null) and its absolute flag
(lines 258-259). -/
structure SwChild where
  path : Option (List Char)
  absolute : Bool

/-- The test of lines 258-259: the path attribute must be truthy (a
non-null, non-empty string) and shouldDisplayRoute must accept it. -/
def childMatches (rootPath currPath : List Char) (c : SwChild) : Bool :=
  match c.path with
  | some p => (!p.isEmpty) && shouldDisplayRoute rootPath currPath p c.absolute
  | none => false

/-- The for loop of lines 256-264: children are rendered in
declaration order; the first whose path matches is appended to the
container and the function returns at once.  sw is the container's
child list so far and i the index of the next child to render; the
result is the final child list and the number of children that were
rendered. -/
def swLoop (rootPath currPath : List Char) :
    List SwChild → List Nat → Nat → List Nat × Nat
  | [], sw, i => (sw, i)
  | c :: rest, sw, i =>
    if childMatches rootPath currPath c then (sw ++ [i], i + 1)
    else swLoop rootPath currPath rest sw (i + 1)

/-- One run of the binding body of routeSwitch (lines 252-266): the
while loop of lines 253-255 first removes every existing child of the
container - prev, the previous child list, is discarded whatever it
held - and then the for loop runs on the empty container. -/
def routeSwitchRender (rootPath currPath : List Char) (prev : List Nat)
    (children : List SwChild) : List Nat × Nat :=
  swLoop rootPath currPath children [] 0

/-- Specification-side helper: the index of the first list entry
satisfying p. -/
def firstMatchIdx {α : Type} (p : α → Bool) : List α → Option Nat
  | [] => none
  | a :: l => if p a then some 0 else (firstMatchIdx p l).map (fun j => j + 1)

/-! Helper lemmas. -/

/-- The notification loop calls each observer once, in order, always
with the same argument. -/
theorem obsLoop_eq_map (arg : JsVal) (l : List Nat) :
    obsLoop arg l = l.map (fun ob => (ob, arg)) := by
  induction l with
  | nil => rfl
  | cons a t ih => simp [obsLoop, ih]

/-- Tagging never changes the DOM. -/
theorem tagElement_dom (w : World) (o : Nat) : (tagElement w o).dom = w.dom := by
  unfold tagElement; split <;> rfl

/-- Tagging never changes el.current. -/
theorem tagElement_current (w : World) (o : Nat) :
    (tagElement w o).current = w.current := by
  unfold tagElement; split <;> rfl

/-- The conditional tagging of lines 83-84 equals tagElement, which
already re-checks. -/
theorem tagIf_eq (w : World) (o : Nat) :
    (if isTagged w o then w else tagElement w o) = tagElement w o := by
  by_cases h : isTagged w o <;> simp [tagElement, h]

/-- Deleting an observers slot never changes the DOM. -/
theorem deleteObsSlot_dom (w : World) (i : ElId) :
    (deleteObsSlot w i).dom = w.dom := by
  cases i <;> rfl

/-- Deleting an observers slot never changes el.current. -/
theorem deleteObsSlot_current (w : World) (i : ElId) :
    (deleteObsSlot w i).current = w.current := by
  cases i <;> rfl

/-- badElementType never produces the MissingChild message. -/
theorem badElementType_ne_missing (el : RChild) :
    badElementType el ≠ Thrown.errStack missingChildMsg := by
  cases el <;> simp [badElementType, ctorNameR, missingChildMsg]

/-- Shape of the trailing-slash strip on a path that already starts
with a single slash followed by a non-slash character and does not end
in a double slash: the result keeps its single leading slash and loses
any trailing one. -/
theorem ensureSlashTail_shape (c : Char) (rest : List Char) (hc : c ≠ '/')
    (h4 : ¬(('/' :: c :: rest).getLast? = some '/'
        ∧ ('/' :: c :: rest).dropLast.getLast? = some '/')) :
    (ensureSlashTail ('/' :: c :: rest)).head? = some '/'
    ∧ (ensureSlashTail ('/' :: c :: rest)).tail.head? ≠ some '/'
    ∧ (ensureSlashTail ('/' :: c :: rest)).getLast? ≠ some '/' := by
  by_cases hend : ('/' :: c :: rest).getLast? = some '/'
  · have hr : ensureSlashTail ('/' :: c :: rest) = ('/' :: c :: rest).dropLast := by
      unfold ensureSlashTail
      rw [if_pos hend]
    rw [hr]
    refine ⟨rfl, ?_, ?_⟩
    · cases rest with
      | nil =>
        exfalso
        have hlast : ('/' :: c :: ([] : List Char)).getLast? = some c := rfl
        rw [hlast] at hend
        exact hc (Option.some.inj hend)
      | cons d u =>
        intro hcontra
        exact hc (Option.some.inj hcontra)
    · intro hlast
      exact h4 ⟨hend, hlast⟩
  · have hr : ensureSlashTail ('/' :: c :: rest) = '/' :: c :: rest := by
      unfold ensureSlashTail
      rw [if_neg hend]
    rw [hr]
    refine ⟨rfl, ?_, hend⟩
    intro hcontra
    exact hc (Option.some.inj hcontra)

/-- The switch loop is determined by the index of the first matching
child. -/
theorem swLoop_eq_firstMatch (rootPath currPath : List Char)
    (cs : List SwChild) :
    ∀ (sw : List Nat) (i : Nat),
      swLoop rootPath currPath cs sw i
        = (match firstMatchIdx (childMatches rootPath currPath) cs with
           | some j => (sw ++ [i + j], i + j + 1)
           | none => (sw, i + cs.length)) := by
  induction cs with
  | nil => intro sw i; simp [swLoop, firstMatchIdx]
  | cons c rest ih =>
    intro sw i
    by_cases h : childMatches rootPath currPath c
    · simp [swLoop, firstMatchIdx, h]
    · have hfi : firstMatchIdx (childMatches rootPath currPath) (c :: rest)
          = (firstMatchIdx (childMatches rootPath currPath) rest).map
              (fun j => j + 1) := by
        simp only [firstMatchIdx]
        rw [if_neg h]
      rw [swLoop, if_neg h, ih sw (i + 1), hfi]
      cases hfm : firstMatchIdx (childMatches rootPath currPath) rest with
      | none => simp; omega
      | some j =>
        simp only [Option.map_some']
        have harith : i + 1 + j = i + (j + 1) := by omega
        rw [harith]

/-! Claim theorems. -/

/-- Claim C1 (corrected): setting property k to v on a state performs
the mutation first and then calls every registered observer exactly
once, in registration order - but each observer receives the whole
mutated backing object (the proxy target, args[0] of the trap), not
the assigned value; deleteProperty likewise passes the target, not the
deleted key. -/
theorem notify_passes_backing_object_once_each (s : StateModel)
    (k : List Char) (v : JsVal) :
    (notifySet s k v).1.target = objSet s.target k v
    ∧ (notifySet s k v).2
        = s.observers.map (fun ob => (ob, JsVal.obj (objSet s.target k v)))
    ∧ (notifyDelete s k).1.target = objDelete s.target k
    ∧ (notifyDelete s k).2
        = s.observers.map (fun ob => (ob, JsVal.obj (objDelete s.target k))) :=
  ⟨rfl, obsLoop_eq_map _ _, rfl, obsLoop_eq_map _ _⟩

/-- Claim C1 counterexample: on the state fnstate({a: 0}) with one
registered observer, the assignment a = 1 notifies the observer with
the whole backing object {a: 1} and not with the value 1, and deleting
a notifies it with the backing object and not with the key "a". -/
theorem notify_argument_counterexample :
    (notifySet ⟨[(['a'], JsVal.numV 0)], [0]⟩ ['a'] (JsVal.numV 1)).2
        = [(0, JsVal.obj [(['a'], JsVal.numV 1)])]
    ∧ (notifySet ⟨[(['a'], JsVal.numV 0)], [0]⟩ ['a'] (JsVal.numV 1)).2
        ≠ [(0, JsVal.numV 1)]
    ∧ (notifyDelete ⟨[(['a'], JsVal.numV 0)], [0]⟩ ['a']).2
        ≠ [(0, JsVal.strV ['a'])] := by
  refine ⟨rfl, fun h => ?_, fun h => ?_⟩
  · injection h with h1 _
    injection h1 with _ h2
    exact JsVal.noConfusion h2
  · injection h with h1 _
    injection h1 with _ h2
    exact JsVal.noConfusion h2

/-- Claim C2 (code bug): after fnstate({a: 0}), the write a = 1 and
resetState(state, true), the backing object still holds a = 1: the
proxy target is the initialState object itself (line 73), so the
Object.assign(p, initialState) of line 99 copies the mutated object
onto itself and restores nothing.  The observer list is emptied, the
reset fires no notification, and a subsequent set notifies nobody -
but the documented restoration of the initial values does not
happen. -/
theorem reset_reinit_restores_nothing :
    (resetState (notifySet ⟨[(['a'], JsVal.numV 0)], [5]⟩ ['a'] (JsVal.numV 1)).1
        true).1.target
      = [(['a'], JsVal.numV 1)]
    ∧ (resetState (notifySet ⟨[(['a'], JsVal.numV 0)], [5]⟩ ['a'] (JsVal.numV 1)).1
        true).1.observers = []
    ∧ (resetState (notifySet ⟨[(['a'], JsVal.numV 0)], [5]⟩ ['a'] (JsVal.numV 1)).1
        true).2 = []
    ∧ (notifySet (resetState
          (notifySet ⟨[(['a'], JsVal.numV 0)], [5]⟩ ['a'] (JsVal.numV 1)).1
          true).1 ['a'] (JsVal.numV 2)).2 = [] :=
  ⟨rfl, rfl, rfl, rfl⟩

/-- Claim C3 (confirmed): on a state notification the handle's node is
replaced exactly when the computed element is a (truthy) DOM node
whose identity tag - after the conditional tagging of lines 83-84 -
differs from el.current's: then every occurrence of the old node in
its sibling list is replaced by the new node, the old node is gone
from the DOM, and el.current becomes the new node; otherwise the DOM
and el.current are untouched. -/
theorem replacement_iff_different_tag (w : World) (ne : JsVal) :
    (replacementCondition w ne →
      ∃ nid, ne = JsVal.node nid
        ∧ (observerNotify w ne).current = nid
        ∧ (observerNotify w ne).dom
            = w.dom.map (fun x => if x = w.current then nid else x)
        ∧ w.current ∉ (observerNotify w ne).dom)
    ∧ (¬ replacementCondition w ne →
      (observerNotify w ne).dom = w.dom
      ∧ (observerNotify w ne).current = w.current) := by
  constructor
  · rintro ⟨nid, rfl, hneq⟩
    have hne : nid ≠ w.current := by
      intro h
      rw [h] at hneq
      exact hneq rfl
    have hcond : getElId (tagElement w nid) (tagElement w nid).current
        ≠ getElId (tagElement w nid) nid := by
      rw [tagElement_current]; exact hneq
    have hobs : observerNotify w (JsVal.node nid)
        = { deleteObsSlot (tagElement w nid)
              (getElId (tagElement w nid) (tagElement w nid).current) with
            dom := (deleteObsSlot (tagElement w nid)
              (getElId (tagElement w nid) (tagElement w nid).current)).dom.map
                (fun x =>
                  if x = (deleteObsSlot (tagElement w nid)
                      (getElId (tagElement w nid) (tagElement w nid).current)).current
                  then nid else x),
            current := nid } := by
      simp only [observerNotify, jsTruthy, isNodeJs, Bool.and_self, if_true,
        tagIf_eq]
      rw [if_pos hcond]
    refine ⟨nid, rfl, ?_, ?_, ?_⟩
    · rw [hobs]
    · rw [hobs]
      simp only [deleteObsSlot_dom, deleteObsSlot_current, tagElement_dom,
        tagElement_current]
    · rw [hobs]
      simp only [deleteObsSlot_dom, deleteObsSlot_current, tagElement_dom,
        tagElement_current, List.mem_map, not_exists]
      rintro x ⟨hx, heq⟩
      by_cases hxc : x = w.current
      · rw [if_pos hxc] at heq
        exact hne heq
      · rw [if_neg hxc] at heq
        exact hxc heq
  · intro hn
    cases ne with
    | node nid =>
      have heq : getElId (tagElement w nid) w.current
          = getElId (tagElement w nid) nid := by
        by_contra hne2
        exact hn ⟨nid, rfl, hne2⟩
      have hcond : ¬ (getElId (tagElement w nid) (tagElement w nid).current
          ≠ getElId (tagElement w nid) nid) := by
        rw [tagElement_current]
        exact fun h => h heq
      have : observerNotify w (JsVal.node nid) = tagElement w nid := by
        simp only [observerNotify, jsTruthy, isNodeJs, Bool.and_self, if_true,
          tagIf_eq]
        rw [if_neg hcond]
      rw [this]
      exact ⟨tagElement_dom w nid, tagElement_current w nid⟩
    | undefV => exact ⟨rfl, rfl⟩
    | nullV => exact ⟨rfl, rfl⟩
    | boolV b => simp [observerNotify, isNodeJs]
    | numV n => simp [observerNotify, isNodeJs]
    | strV s => simp [observerNotify, isNodeJs]
    | obj fields => simp [observerNotify, isNodeJs]

/-- Claim C3 witness: in the world where the untagged node 5 sits in
the DOM and is tracked by the handle, a freshly computed node 7 gets a
tag differing from el.current's untagged false, so the replacement
fires: node 5 leaves the DOM, node 7 takes its position and el.current
becomes 7. -/
theorem replacement_iff_different_tag_witness :
    replacementCondition ⟨0, [], [5], 5, []⟩ (JsVal.node 7)
    ∧ ∃ nid, JsVal.node 7 = JsVal.node nid
        ∧ (observerNotify ⟨0, [], [5], 5, []⟩ (JsVal.node 7)).current = nid
        ∧ (observerNotify ⟨0, [], [5], 5, []⟩ (JsVal.node 7)).dom
            = (World.mk 0 [] [5] 5 []).dom.map
                (fun x => if x = (World.mk 0 [] [5] 5 []).current then nid else x)
        ∧ (World.mk 0 [] [5] 5 []).current
            ∉ (observerNotify ⟨0, [], [5], 5, []⟩ (JsVal.node 7)).dom := by
  have hc : replacementCondition ⟨0, [], [5], 5, []⟩ (JsVal.node 7) :=
    ⟨7, rfl, by decide⟩
  exact ⟨hc, (replacement_iff_different_tag ⟨0, [], [5], 5, []⟩ (JsVal.node 7)).1 hc⟩

/-- Claim C4 counterexample: for fnbind(state, () => h('div')) - a
render function creating a fresh element on every invocation - the
accessor returns node 0 on the first call and node 1 on the second,
with no intervening notification; the two nodes are not
identity-equal. -/
theorem accessor_fresh_node_counterexample :
    accessorCall (.fnTarget (fun c => (c + 1, RChild.nodeV c))) ⟨0, 99⟩
        = .ok (⟨1, 0⟩, 0)
    ∧ accessorCall (.fnTarget (fun c => (c + 1, RChild.nodeV c))) ⟨1, 0⟩
        = .ok (⟨2, 1⟩, 1)
    ∧ (0 : Nat) ≠ 1 := ⟨rfl, rfl, by decide⟩

/-- Claim C4 (corrected): the accessor recomputes el.current on every
call.  When the bound element is a DOM node (the node-plus-update
form) each call returns that same node, so two calls are
identity-equal; when it is a render function the accessor re-invokes
it and re-renders on every call, so the two returned nodes are
whatever the two renders produce and need not be identity-equal. -/
theorem accessor_node_target_idempotent (n : Nat) (s : AccState) :
    accessorCall (.nodeTarget n) s = .ok (⟨s.cnt, n⟩, n)
    ∧ accessorCall (.nodeTarget n) ⟨s.cnt, n⟩ = .ok (⟨s.cnt, n⟩, n) :=
  ⟨rfl, rfl⟩

/-- Claim C5 counterexample: in a fresh world where the handle object
7 tracks the untagged node 5 (el = {current: marker()}), addObserver
leaves el.current untagged: line 79 tags the handle object el itself,
not the node it tracks. -/
theorem addObserver_current_untagged_counterexample :
    isTagged (addObserver ⟨0, [], [5], 5, []⟩ 7) 5 = false
    ∧ isTagged (addObserver ⟨0, [], [5], 5, []⟩ 7) 7 = true := by decide

/-- Claim C5 (corrected): addObserver identity-tags the handle object
el itself (line 79) before pushing the observer closure; the node in
handle.current is not tagged by it and can stay untagged. -/
theorem addObserver_tags_handle (w : World) (handleObj : Nat) :
    isTagged (addObserver w handleObj) handleObj = true
    ∧ (addObserver w handleObj).observers = w.observers ++ [some ()] := by
  constructor
  · show ((tagElement w handleObj).tags.lookup handleObj).isSome = true
    by_cases h : isTagged w handleObj
    · unfold tagElement
      rw [if_pos h]
      exact h
    · unfold tagElement
      rw [if_neg h]
      show ((((handleObj, w.lastId) :: w.tags).lookup handleObj)).isSome = true
      simp [List.lookup]
  · by_cases h : isTagged w handleObj <;> simp [addObserver, tagElement, h]

/-- Claim C6 (code bug): with rootPath set from "/" (which ensureSlash
turns into the empty string), the relative route "/a" does display on
"/a" and on the deeper "/a/x" - but the built pattern "/?a([/?#]|$)"
is searched unanchored in the browser path, so shouldDisplayRoute also
accepts "/ba", where the claim (and the doc comment of route,
line 171) requires false. -/
theorem shouldDisplayRoute_unanchored :
    shouldDisplayRoute (ensureSlash ['/']) ['/', 'a'] ['/', 'a'] false = true
    ∧ shouldDisplayRoute (ensureSlash ['/']) ['/', 'a', '/', 'x'] ['/', 'a'] false
        = true
    ∧ shouldDisplayRoute (ensureSlash ['/']) ['/', 'b', 'a'] ['/', 'a'] false
        = true := by decide

/-- Claim C7 (confirmed): one run of routeSwitch first clears the
container, then renders the children in declaration order and appends
exactly the first one whose path attribute passes the display
predicate, rendering none after it (and renders all of them, appending
none, when no child matches); in particular with child paths
["/x", "/:id", "/x"] and current path "/x" only the first child is
rendered and appended. -/
theorem routeSwitch_first_match_wins :
    (∀ (rootPath currPath : List Char) (prev : List Nat)
        (children : List SwChild),
      routeSwitchRender rootPath currPath prev children
        = (match firstMatchIdx (childMatches rootPath currPath) children with
           | some j => ([j], j + 1)
           | none => ([], children.length)))
    ∧ routeSwitchRender (ensureSlash ['/']) ['/', 'x'] [9]
        [⟨some ['/', 'x'], false⟩, ⟨some ['/', ':', 'i', 'd'], false⟩,
          ⟨some ['/', 'x'], false⟩]
        = ([0], 1) := by
  constructor
  · intro rootPath currPath prev children
    rw [routeSwitchRender, swLoop_eq_firstMatch]
    cases firstMatchIdx (childMatches rootPath currPath) children <;> simp
  · decide

/-- Claim C8 counterexample: ensureSlash does not preserve the bare
root - it maps "/" to the empty string, which does not even start with
a slash; moreover "//a" keeps its two leading slashes and "a//" keeps
a trailing slash, so neither "exactly one leading slash" nor "no
trailing slash" holds of every input. -/
theorem ensureSlash_counterexample :
    ensureSlash ['/'] = []
    ∧ ensureSlash ['/'] ≠ ['/']
    ∧ (ensureSlash ['/', '/', 'a']).tail.head? = some '/'
    ∧ (ensureSlash ['a', '/', '/']).getLast? = some '/' := by decide

/-- Claim C8 (corrected): ensureSlash prepends at most one slash and
strips at most one trailing slash.  For every input other than the
empty string and the bare root "/" that neither starts nor ends with a
double slash, the result starts with exactly one leading slash and
does not end with a slash; the bare root itself is not preserved but
becomes the empty string (see the counterexample). -/
theorem ensureSlash_normal_shape (s : List Char)
    (h1 : s ≠ []) (h2 : s ≠ ['/'])
    (h3 : ¬(s.head? = some '/' ∧ s.tail.head? = some '/'))
    (h4 : ¬(s.getLast? = some '/' ∧ s.dropLast.getLast? = some '/')) :
    (ensureSlash s).head? = some '/'
    ∧ (ensureSlash s).tail.head? ≠ some '/'
    ∧ (ensureSlash s).getLast? ≠ some '/' := by
  cases s with
  | nil => exact absurd rfl h1
  | cons a t =>
    by_cases ha : a = '/'
    · subst ha
      cases t with
      | nil => exact absurd rfl h2
      | cons b u =>
        have hb : b ≠ '/' := by
          intro hb
          refine h3 ⟨rfl, ?_⟩
          rw [hb]
          rfl
        have hp : ensureSlash ('/' :: b :: u) = ensureSlashTail ('/' :: b :: u) := by
          unfold ensureSlash
          rw [if_pos (show ('/' :: b :: u).head? = some '/' from rfl)]
        rw [hp]
        exact ensureSlashTail_shape b u hb h4
    · have hcond : ¬((a :: t).head? = some '/') := fun hh =>
        ha (Option.some.inj hh)
      have hp : ensureSlash (a :: t) = ensureSlashTail ('/' :: a :: t) := by
        unfold ensureSlash
        rw [if_neg hcond]
      rw [hp]
      refine ensureSlashTail_shape a t ha ?_
      rintro ⟨hp1, hp2⟩
      rw [List.getLast?_cons_cons] at hp1
      cases t with
      | nil => exact ha (Option.some.inj hp1)
      | cons b u =>
        have hdl : ('/' :: a :: b :: u).dropLast
            = '/' :: a :: (b :: u).dropLast := rfl
        rw [hdl, List.getLast?_cons_cons] at hp2
        exact h4 ⟨hp1, hp2⟩

/-- Claim C8 witness: the input "a/" satisfies the side conditions and
normalizes to "/a". -/
theorem ensureSlash_normal_shape_witness :
    (['a', '/'] ≠ ([] : List Char))
    ∧ ((ensureSlash ['a', '/']).head? = some '/'
        ∧ (ensureSlash ['a', '/']).tail.head? ≠ some '/'
        ∧ (ensureSlash ['a', '/']).getLast? ≠ some '/') :=
  ⟨by decide,
    ensureSlash_normal_shape ['a', '/'] (by decide) (by decide) (by decide)
      (by decide)⟩

/-- Claim C9 counterexample: renderElement does not fail on the empty
string - typeof "" is "string", so the falsy check of line 125 is
skipped and an empty text node is produced - and it DOES fail with
MissingChild on the falsy number 0, which the claim assigns to
InvalidElementType territory. -/
theorem renderElement_empty_string_counterexample :
    renderElement 0 (.strV "") = .ok (1, 0)
    ∧ renderElement 0 (.strV "") ≠ .error (.errStack missingChildMsg)
    ∧ renderElement 0 (.numV 0) = .error (.errStack missingChildMsg) := by
  refine ⟨rfl, fun h => Except.noConfusion h, rfl⟩

/-- Claim C9 (corrected): renderElement fails with MissingChild
exactly when the value is falsy and not of string type (undefined,
null, false, 0); the empty string is rendered as an empty text node,
not rejected; and a bare truthy non-renderable such as 42 fails with
InvalidElementType naming the value's constructor (Number) in the
message. -/
theorem renderElement_error_classification (cnt : Nat) (el : RChild) :
    (renderElement cnt el = .error (.errStack missingChildMsg)
      ↔ (isStr el = false ∧ rTruthy el = false))
    ∧ renderElement cnt (.strV "") = .ok (cnt + 1, cnt)
    ∧ renderElement cnt (.numV 42) = .error (badElementType (.numV 42))
    ∧ badElementType (.numV 42)
        = .errStack ("Element type Number is not supported. " ++
            "Elements must be one of [String, Function, Element, HTMLElement]") := by
  refine ⟨?_, rfl, rfl, by decide⟩
  cases el with
  | undefV => simp [renderElement, isStr, rTruthy]
  | nullV => simp [renderElement, isStr, rTruthy]
  | boolV b =>
    cases b with
    | false => simp [renderElement, isStr, rTruthy]
    | true =>
      simp [renderElement, isStr, rTruthy, isFunc, isNodeR,
        badElementType_ne_missing (RChild.boolV true)]
  | numV n =>
    by_cases hn : n = 0
    · subst hn; simp [renderElement, isStr, rTruthy]
    · simp [renderElement, isStr, rTruthy, hn, isFunc, isNodeR,
        badElementType_ne_missing (RChild.numV n)]
  | strV s => simp [renderElement, isStr]
  | funcV ret =>
    cases ret <;>
      simp [renderElement, isStr, rTruthy, isFunc, isNodeR, invokeR,
        badElementType_ne_missing]
  | nodeV nid => simp [renderElement, isStr, rTruthy, isFunc, isNodeR]
  | objV =>
    simp [renderElement, isStr, rTruthy, isFunc, isNodeR,
      badElementType_ne_missing RChild.objV]

/-- Claim C10 (confirmed): every failure the module raises - in the
renderer, the fnbind validation, the fnstate validation and the fnapp
root resolution - is the stack string of a freshly constructed Error
(new Error(msg).stack), never the Error object itself. -/
theorem errors_are_stack_strings :
    (∀ (cnt : Nat) (el : RChild), stackOnly (renderElement cnt el) = true)
    ∧ (∀ (element update : RChild) (stateChecks : List Bool),
        stackOnly (fnbindCheck element update stateChecks) = true)
    ∧ (∀ ini : RChild, stackOnly (fnstateInit ini) = true)
    ∧ (∀ (root : RChild) (byId : String → Option Nat),
        stackOnly (fnappRoot root byId) = true) := by
  refine ⟨?_, ?_, ?_, ?_⟩
  · intro cnt el
    cases el with
    | numV n =>
      by_cases hn : n = 0 <;>
        simp [renderElement, stackOnly, isStr, rTruthy, isFunc, isNodeR,
          badElementType, hn]
    | boolV b =>
      cases b <;>
        simp [renderElement, stackOnly, isStr, rTruthy, isFunc, isNodeR,
          badElementType]
    | funcV ret =>
      cases ret <;>
        simp [renderElement, stackOnly, isStr, rTruthy, isFunc, isNodeR,
          invokeR, badElementType]
    | undefV => simp [renderElement, stackOnly, isStr, rTruthy]
    | nullV => simp [renderElement, stackOnly, isStr, rTruthy]
    | strV s => simp [renderElement, stackOnly, isStr]
    | nodeV nid =>
      simp [renderElement, stackOnly, isStr, rTruthy, isFunc, isNodeR]
    | objV =>
      simp [renderElement, stackOnly, isStr, rTruthy, isFunc, isNodeR,
        badElementType]
  · intro element update stateChecks
    unfold fnbindCheck
    split
    · rfl
    · split
      · rfl
      · split
        · rfl
        · rfl
  · intro ini
    cases ini <;> rfl
  · intro root byId
    cases root with
    | strV s => cases h : byId s <;> simp [fnappRoot, stackOnly, h]
    | undefV => rfl
    | nullV => rfl
    | boolV b => rfl
    | numV n => rfl
    | funcV ret => rfl
    | nodeV nid => rfl
    | objV => rfl

end Fntags
